import Mathlib

/-!
Verification of the OpenAI-router service (`src/main.py`).

The service exposes two HTTP endpoints:
* `GET /v1/models` (`list_models`): returns a model catalog, preferring a
  local cache file, then the primary (Gemini) provider, then the secondary
  (OpenRouter) provider.
* `POST /v1/chat/completions` (`chat_completions`): streams chat completions
  from the primary provider (translating OpenAI-style messages when needed),
  or relays the secondary provider's SSE stream when no primary client is
  configured.

The embedding models JSON values, the environment (cache-file parse result,
provider behaviours) and the handlers as pure functions.  File I/O and the
HTTP transport are abstracted: the cache file is represented by its parse
result, each provider by the outcome of the single call the code makes to it,
and a handler's result records which upstream calls were made and, for
streaming responses, the exact SSE lines the response generator yields.
-/

/-- JSON values (`json.load` / `request.json()` results).  Numbers are
modelled as integers; no claim depends on float behaviour. -/
inductive Json where
  | null
  | bool (b : Bool)
  | num (n : Int)
  | str (s : String)
  | arr (elems : List Json)
  | obj (fields : List (String × Json))

/-- First-match key lookup in an object's field list (Python `dict`
access; parsed JSON objects have unique keys, so first match is the
dict entry). -/
def lookupKey : List (String × Json) → String → Option Json
  | [], _ => none
  | (k2, v) :: rest, k => if k2 = k then some v else lookupKey rest k

/-- `d.get(k)` on a JSON value: `none` when the value is not an object or
lacks the key (non-object access raises in Python; callers model that
separately). -/
def Json.getField : Json → String → Option Json
  | .obj fields, k => lookupKey fields k
  | _, _ => none

/-- Python truthiness (`not x`) of a JSON value: `None`, `False`, `0`, `""`,
`[]` and `{}` are falsy. -/
def Json.isFalsy : Json → Bool
  | .null => true
  | .bool b => !b
  | .num n => n == 0
  | .str s => s.isEmpty
  | .arr xs => xs.isEmpty
  | .obj fs => fs.isEmpty

/-- Whether `len(x)` succeeds in Python on this JSON value (sized types:
str, list, dict). -/
def Json.hasLen : Json → Bool
  | .str _ => true
  | .arr _ => true
  | .obj _ => true
  | _ => false

/-- `d[k] = v` on an object's field list: replace the value of an existing
key in place, else append the new entry (Python dict assignment order
semantics). -/
def setKey : List (String × Json) → String → Json → List (String × Json)
  | [], k, v => [(k, v)]
  | (k2, v2) :: rest, k, v =>
    if k2 = k then (k, v) :: rest else (k2, v2) :: setKey rest k v

/-- One hex digit, lowercase, as produced by `json.dumps` escapes. -/
def hexDigit (n : Nat) : Char :=
  if n < 10 then Char.ofNat (48 + n) else Char.ofNat (87 + n)

/-- A `\uXXXX` escape for a 16-bit code unit. -/
def u16Escape (n : Nat) : String :=
  "\\u" ++ String.mk [hexDigit (n / 4096 % 16), hexDigit (n / 256 % 16),
                      hexDigit (n / 16 % 16), hexDigit (n % 16)]

/-- Escape one character as Python's `json.dumps` (default
`ensure_ascii=True`) does. -/
def escapeChar (c : Char) : String :=
  if c = '"' then "\\\""
  else if c = '\\' then "\\\\"
  else if c = '\n' then "\\n"
  else if c = '\r' then "\\r"
  else if c = '\t' then "\\t"
  else if c.toNat = 8 then "\\b"
  else if c.toNat = 12 then "\\f"
  else if c.toNat < 32 then u16Escape c.toNat
  else if c.toNat < 127 then String.singleton c
  else if c.toNat < 65536 then u16Escape c.toNat
  else
    let v := c.toNat - 65536
    u16Escape (55296 + v / 1024) ++ u16Escape (56320 + v % 1024)

/-- A JSON string literal as serialized by `json.dumps`. -/
def jsonQuote (s : String) : String :=
  "\"" ++ String.join (s.data.map escapeChar) ++ "\""

mutual

/-- `json.dumps` with default separators (`", "` and `": "`). -/
def Json.dumps : Json → String
  | .null => "null"
  | .bool b => if b then "true" else "false"
  | .num n => toString n
  | .str s => jsonQuote s
  | .arr xs => "[" ++ String.intercalate ", " (dumpsElems xs) ++ "]"
  | .obj fs => "\x7b" ++ String.intercalate ", " (dumpsMembers fs) ++ "\x7d"

/-- Serialize the elements of a JSON array. -/
def dumpsElems : List Json → List String
  | [] => []
  | x :: xs => Json.dumps x :: dumpsElems xs

/-- Serialize the members of a JSON object. -/
def dumpsMembers : List (String × Json) → List String
  | [] => []
  | (k, v) :: fs => (jsonQuote k ++ ": " ++ Json.dumps v) :: dumpsMembers fs

end

/-- An HTTP response produced without streaming (`JSONResponse`). -/
structure HttpResponse where
  status : Nat
  body : Json

/-- Which upstream provider calls a `GET /v1/models` request performs. -/
inductive UpstreamCall where
  | genaiList
  | openrouterModels
deriving DecidableEq, Repr

/-- One model object returned by the primary provider's
`genai_client.models.list()`.  Optional attributes are `none` when the
attribute is absent, in which case the code's `getattr(m, attr, default)`
substitutes its default. -/
structure GenaiModel where
  name : String
  display_name : Option String
  description : Option String
  input_token_limit : Option Int
  output_token_limit : Option Int
  supported_generation_methods : Option (List String)

/-- Environment of one `GET /v1/models` request: the cache file (absent, or
present with its JSON parse result), the primary client (`none` when
`GEMINI_API_KEY` is unset) together with the outcome of its `models.list()`
call, and the outcome of the secondary provider's `GET {base}/models`
(`r.status_code` and `r.json()`), where `.error` is any raised exception with
its message. -/
structure ModelsEnv where
  cache : Option (Except Unit Json)
  genaiModels : Option (Except String (List GenaiModel))
  openrouter : Except String (Nat × Json)

/-- The mapping from one primary-provider model to a catalog descriptor
(`main.py` lines 52-74). -/
def mapGenaiModel (m : GenaiModel) : Json :=
  let canonical_slug := m.name.replace "models/" ""
  .obj [("id", .str canonical_slug),
        ("canonical_slug", .str canonical_slug),
        ("name", .str (m.display_name.getD canonical_slug)),
        ("created", .num 0),
        ("description", .str (m.description.getD "")),
        ("context_length", .num (m.input_token_limit.getD 4096)),
        ("architecture", .obj [
          ("modality", .str "text->text"),
          ("input_modalities", .arr [.str "text"]),
          ("output_modalities", .arr [.str "text"]),
          ("tokenizer", .str "Gemini"),
          ("instruct_type", .null)]),
        ("top_provider", .obj [
          ("context_length", .num (m.input_token_limit.getD 4096)),
          ("max_completion_tokens", .num (m.output_token_limit.getD 4096)),
          ("is_moderated", .bool false)]),
        ("per_request_limits", .null),
        ("supported_parameters", .arr ((m.supported_generation_methods.getD []).map .str))]

/-- The cache branch of `list_models` (lines 35-42): the cached document is
served only when the file exists, parses as JSON, and the log statement
`len(cached_data['data'])` succeeds — i.e. the document is an object with a
`data` key whose value supports `len()`.  Any failure is caught and control
falls through to the live fetch. -/
def cacheHit : Option (Except Unit Json) → Option Json
  | some (.ok j) =>
    match j.getField "data" with
    | some d => if d.hasLen then some j else none
    | none => none
  | _ => none

/-- The live-fetch part of `list_models` (lines 44-105): primary provider if
configured (exception there returns 500 without falling through), else the
secondary provider.  The `len(filtered)` log line raises `TypeError` on an
unsized `data` value, and `data.get` raises `AttributeError` on a non-object
response; both are caught by the surrounding `except` and yield 500.
The best-effort cache write (lines 79-84) only touches the filesystem and is
not observable in the response. -/
def liveFetch (env : ModelsEnv) : HttpResponse × List UpstreamCall :=
  match env.genaiModels with
  | some (.ok ms) =>
    let mapped_models := ms.map mapGenaiModel
    (⟨200, .obj [("object", .str "list"), ("data", .arr mapped_models)]⟩, [.genaiList])
  | some (.error e) => (⟨500, .obj [("error", .str e)]⟩, [.genaiList])
  | none =>
    match env.openrouter with
    | .error e => (⟨500, .obj [("error", .str e)]⟩, [.openrouterModels])
    | .ok (st, data) =>
      match data with
      | .obj fs =>
        let filtered := (lookupKey fs "data").getD (.arr [])
        if filtered.hasLen then
          (⟨st, .obj [("object", .str "list"), ("data", filtered)]⟩, [.openrouterModels])
        else
          (⟨500, .obj [("error", .str "TypeError")]⟩, [.openrouterModels])
      | _ => (⟨500, .obj [("error", .str "AttributeError")]⟩, [.openrouterModels])

/-- `GET /v1/models` (`list_models`, lines 29-105), returning the HTTP
response and the list of upstream provider calls performed. -/
def list_models (env : ModelsEnv) : HttpResponse × List UpstreamCall :=
  match cacheHit env.cache with
  | some j => (⟨200, j⟩, [])
  | none => liveFetch env

/-- Python `x == "lit"` where `x` is a JSON value (only equal when `x` is
that string). -/
def Json.eqStr (j : Json) (s : String) : Bool :=
  match j with
  | .str s2 => s2 == s
  | _ => false

/-- `role == "lit"` where `role = msg.get("role")` may be `None`
(absent key): `None == "lit"` is false in Python. -/
def roleIs (role : Option Json) (s : String) : Bool :=
  match role with
  | some j => j.eqStr s
  | none => false

/-- The role mapping of `convert_openai_messages_to_gemini_contents`
(line 117): `"user" if role == "user" else ("model" if role == "assistant"
else "system")`. -/
def mapRole (role : Option Json) : String :=
  if roleIs role "user" then "user"
  else if roleIs role "assistant" then "model"
  else "system"

/-- `convert_openai_messages_to_gemini_contents` (lines 108-120).  Each
message must be a dict (`msg.get` raises `AttributeError` otherwise,
modelled as `.error`); a message whose `content` value is falsy is skipped;
otherwise the mapped role and a single-part text payload are appended. -/
def convert_openai_messages_to_gemini_contents : List Json → Except String (List Json)
  | [] => .ok []
  | msg :: rest =>
    match msg with
    | .obj fields =>
      let text := (lookupKey fields "content").getD (.str "")
      if text.isFalsy then convert_openai_messages_to_gemini_contents rest
      else
        (convert_openai_messages_to_gemini_contents rest).map
          (fun tail =>
            Json.obj [("role", .str (mapRole (lookupKey fields "role"))),
                      ("parts", .arr [.obj [("text", text)]])] :: tail)
    | _ => .error "AttributeError"

/-- Python `a or b` applied to `body.get("messages") or body.get("contents")`
(line 137): the second operand is used when the first is `None` (absent) or
falsy. -/
def pyOr (a b : Option Json) : Option Json :=
  match a with
  | some v => if v.isFalsy then b else some v
  | none => b

/-- One event of the primary provider's `generate_content_stream` iterator:
either it has a `text` attribute (whose value may be any JSON value,
including `None`) or it does not. -/
inductive GenEvent where
  | withText (t : Json)
  | noText

/-- Observed behaviour of one `generate_content_stream` call: the events the
iterator yields, then optionally an exception (at call time when
`events = []`, or mid-iteration) with its message. -/
structure GenStream where
  events : List GenEvent
  err : Option String

/-- Observed behaviour of one streaming POST to the secondary provider's
chat-completions endpoint: the lines of `r.aiter_lines()`, then optionally
an exception (at connection time when `lines = []`, or mid-stream). -/
structure SecondaryBehavior where
  lines : List String
  err : Option String

/-- Environment of one `POST /v1/chat/completions` request: whether the
primary client is configured, and the behaviour of each possible upstream
streaming call as a function of the arguments the code passes to it. -/
structure ChatEnv where
  genaiConfigured : Bool
  primary : Json → Json → GenStream
  secondary : Json → SecondaryBehavior

/-- The upstream streaming call a chat response is wired to, with the exact
arguments the handler passes: `generate_content_stream(model, contents)` for
the primary branch, or the forwarded JSON body for the secondary branch. -/
inductive StreamCall where
  | primary (model : Json) (contents : Json)
  | secondary (body : Json)

/-- Result of `chat_completions`: a synchronous JSON response, a streaming
response (recording the upstream call and the SSE lines the generator
yields), or an exception escaping the handler (served as a plain 500 by the
framework's error middleware). -/
inductive ChatResult where
  | jsonResp (status : Nat) (body : Json)
  | stream (call : StreamCall) (lines : List String)
  | uncaught (msg : String)

/-- An SSE event line: `f"data: {json.dumps(j)}\n\n"`. -/
def sseData (j : Json) : String := "data: " ++ j.dumps ++ "\n\n"

/-- The terminal sentinel line `"data: [DONE]\n\n"`. -/
def doneLine : String := "data: [DONE]\n\n"

/-- The body of the 400 response for a missing/falsy content field. -/
def missingBody : Json := .obj [("error", .str "Missing 'messages' or 'contents'")]

/-- The OpenAI-style chunk built for one text fragment (lines 154-164). -/
def chunkJson (t : Json) : Json :=
  .obj [("id", .str "chatcmpl-gemini"),
        ("object", .str "chat.completion.chunk"),
        ("choices", .arr [.obj [
          ("delta", .obj [("content", t)]),
          ("index", .num 0),
          ("finish_reason", .null)]])]

/-- The chunk lines emitted for the events of a primary stream: one SSE line
per event that has a `text` attribute (lines 152-165). -/
def chunkLines (events : List GenEvent) : List String :=
  events.filterMap fun e =>
    match e with
    | .withText t => some (sseData (chunkJson t))
    | .noText => none

/-- `gemini_event_generator` (lines 144-173): the SSE lines the primary
branch's generator yields, given the observed stream behaviour.  On success
the chunks are followed by the sentinel; an exception is caught in-band and
yields one error event followed by the sentinel. -/
def gemini_event_generator (s : GenStream) : List String :=
  match s.err with
  | none => chunkLines s.events ++ [doneLine]
  | some e => chunkLines s.events ++ [sseData (.obj [("error", .str e)]), doneLine]

/-- The relayed lines of the secondary branch: each non-empty upstream line
verbatim with a blank line appended (lines 194-198). -/
def relayLines (ls : List String) : List String :=
  (ls.filter fun l => !l.isEmpty).map (fun l => l ++ "\n\n")

/-- The in-band error event of the secondary branch (lines 203-204). -/
def orErrorLine (e : String) : String :=
  sseData (.obj [("error", .str ("Streaming failed: " ++ e))])

/-- `event_generator` (lines 190-205): the SSE lines the secondary branch's
generator yields.  On success the relayed lines are followed by the
sentinel; an exception is caught in-band and yields one error event followed
by the sentinel. -/
def event_generator (b : SecondaryBehavior) : List String :=
  match b.err with
  | none => relayLines b.lines ++ [doneLine]
  | some e => relayLines b.lines ++ [orErrorLine e, doneLine]

/-- The content-resolution step of the primary branch (lines 142-143):
a list whose first element is a dict is run through the message translator
(whose `AttributeError` on a non-dict later element propagates); an empty
list would raise `IndexError` at `contents[0]` (unreachable, since a falsy
content value was already rejected); anything else is used unchanged. -/
def resolveContents (c : Json) : Except String Json :=
  match c with
  | .arr (Json.obj f :: t) =>
    (convert_openai_messages_to_gemini_contents (Json.obj f :: t)).map Json.arr
  | .arr [] => .error "IndexError"
  | c => .ok c

/-- Steps c-d of the primary branch, after model and content are resolved:
run the content-shape dispatch and open the stream (lines 142-175); an
exception raised before streaming begins (the translator's) is returned as
a synchronous 500 (line 177-179). -/
def primaryCall (env : ChatEnv) (model contents : Json) : ChatResult :=
  match resolveContents contents with
  | .error e => .jsonResp 500 (.obj [("error", .str e)])
  | .ok c2 => .stream (.primary model c2) (gemini_event_generator (env.primary model c2))

/-- `POST /v1/chat/completions` (`chat_completions`, lines 122-207), as a
function of the request body's JSON parse result.  A parse failure returns
400; the primary branch resolves model and content from the body (a
non-dict body's `body.get` raises `AttributeError`, caught at line 177 as a
500); the secondary branch sets `body["stream"] = True` (raising an
uncaught `TypeError` on a non-dict body) and relays the upstream stream. -/
def chat_completions (env : ChatEnv) (parsed : Except Unit Json) : ChatResult :=
  match parsed with
  | .error _ => .jsonResp 400 (.obj [("error", .str "Invalid JSON body")])
  | .ok body =>
    if env.genaiConfigured then
      match body with
      | .obj fields =>
        let model := (lookupKey fields "model").getD (.str "gemini-2.5-flash")
        let contents := (pyOr (lookupKey fields "messages") (lookupKey fields "contents")).getD .null
        if contents.isFalsy then .jsonResp 400 missingBody
        else primaryCall env model contents
      | _ => .jsonResp 500 (.obj [("error", .str "AttributeError")])
    else
      match body with
      | .obj fields =>
        let fwd := Json.obj (setKey fields "stream" (.bool true))
        .stream (.secondary fwd) (event_generator (env.secondary fwd))
      | _ => .uncaught "TypeError"

/-- A ChatMessage as the specification's data model describes it:
`{role: string, content: text}`. -/
structure ChatMessage where
  role : String
  content : String

/-- The JSON encoding of a spec-level ChatMessage. -/
def ChatMessage.toJson (m : ChatMessage) : Json :=
  .obj [("role", .str m.role), ("content", .str m.content)]

/-- Modelled from the spec (claim C2 wording, §4.2), for comparison with the
source translator: drop a message whose content is empty, else map role
`user`→`user`, `assistant`→`model`, anything else→`system`, and wrap the
content as a single-element parts list `[{text: content}]`. -/
def specMessageTranslation (m : ChatMessage) : Option Json :=
  if m.content.isEmpty then none
  else
    some (.obj [
      ("role", .str (if m.role = "user" then "user"
                     else if m.role = "assistant" then "model"
                     else "system")),
      ("parts", .arr [.obj [("text", .str m.content)]])])

/-- A field that Python's `body.get(k) or ...` treats as not supplied:
absent, or present with a falsy value. -/
def absentOrFalsy (o : Option Json) : Prop :=
  o = none ∨ ∃ v, o = some v ∧ v.isFalsy = true

/-- Whether a JSON value is a (nonempty) array whose first element is an
object — the exact shape test `isinstance(contents, list) and
isinstance(contents[0], dict)` of line 142. -/
def headIsObjList : Json → Bool
  | .arr (.obj _ :: _) => true
  | _ => false

/-- A primary-branch chat environment whose provider stream yields no
events and no exception (used to instantiate universally quantified
results at concrete inputs). -/
def quietPrimaryEnv : ChatEnv :=
  ⟨true, fun _ _ => ⟨[], none⟩, fun _ => ⟨[], none⟩⟩

/-- A secondary-branch chat environment whose upstream stream yields no
lines and no exception. -/
def quietSecondaryEnv : ChatEnv :=
  ⟨false, fun _ _ => ⟨[], none⟩, fun _ => ⟨[], none⟩⟩

/-- A primary-provider model carrying only the mandatory `name` attribute;
every optional attribute is absent. -/
def bareModel : GenaiModel :=
  ⟨"models/gemini-x", none, none, none, none, none⟩

/-- A models environment with no cache file, a configured primary client
reporting exactly one bare model, and an idle secondary provider. -/
def oneModelEnv : ModelsEnv :=
  ⟨none, some (.ok [bareModel]), .ok (200, .obj [])⟩

/-! ## Helper lemmas -/

theorem sse_prefix_ne_done (s1 s2 : String) :
    "data: " ++ ("\x7b" ++ s1) ++ s2 ≠ "data: [DONE]\n\n" := by
  intro h
  have h2 := congrArg String.data h
  rw [String.data_append, String.data_append, String.data_append] at h2
  have e1 : ("data: " : String).data = ['d', 'a', 't', 'a', ':', ' '] := rfl
  have e2 : ("\x7b" : String).data = ['{'] := rfl
  have e3 : ("data: [DONE]\n\n" : String).data
      = ['d', 'a', 't', 'a', ':', ' ', '[', 'D', 'O', 'N', 'E', ']', '\n', '\n'] := rfl
  rw [e1, e2, e3] at h2
  simp at h2

theorem dumps_obj_eq (fs : List (String × Json)) :
    Json.dumps (Json.obj fs)
      = "\x7b" ++ (String.intercalate ", " (dumpsMembers fs) ++ "\x7d") := by
  rw [Json.dumps, String.append_assoc]

theorem sseData_obj_ne_done (fs : List (String × Json)) :
    sseData (Json.obj fs) ≠ doneLine := by
  rw [sseData, doneLine, dumps_obj_eq]
  exact sse_prefix_ne_done _ _

theorem chunkLines_countP_done (events : List GenEvent) :
    (chunkLines events).countP (fun l => l == doneLine) = 0 := by
  rw [List.countP_eq_zero]
  intro l hl
  obtain ⟨e, he, hmap⟩ := List.mem_filterMap.1 hl
  cases e with
  | withText t =>
    simp only [Option.some.injEq] at hmap
    subst hmap
    simpa using sseData_obj_ne_done _
  | noText => simp at hmap

theorem lookupKey_setKey_self (fs : List (String × Json)) (k : String) (v : Json) :
    lookupKey (setKey fs k v) k = some v := by
  induction fs with
  | nil => simp [setKey, lookupKey]
  | cons p rest ih =>
    obtain ⟨k2, v2⟩ := p
    by_cases h : k2 = k
    · simp [setKey, h, lookupKey]
    · simp [setKey, h, lookupKey, ih]

theorem lookupKey_setKey_ne (fs : List (String × Json)) (k k2 : String) (v : Json)
    (h : k2 ≠ k) :
    lookupKey (setKey fs k v) k2 = lookupKey fs k2 := by
  induction fs with
  | nil =>
    have h2 : ¬(k = k2) := fun e => h (Eq.symm e)
    simp [setKey, lookupKey, h2]
  | cons p rest ih =>
    obtain ⟨k3, v3⟩ := p
    by_cases h3 : k3 = k
    · subst h3
      have h2 : ¬(k3 = k2) := fun e => h (Eq.symm e)
      simp [setKey, lookupKey, h2]
    · simp [setKey, h3, lookupKey, ih]

/-! ## Claim C4 -/

/-- C4: for every `POST /v1/chat/completions` request whose body fails to
parse as JSON, the response is a synchronous HTTP 400 with body
`{"error": "Invalid JSON body"}`, and no streaming response is ever started
for such a request. -/
theorem invalid_json_returns_400 (env : ChatEnv) :
    chat_completions env (.error ())
      = .jsonResp 400 (.obj [("error", .str "Invalid JSON body")]) ∧
    ∀ call lines, chat_completions env (.error ()) ≠ .stream call lines := by
  refine ⟨rfl, ?_⟩
  intro call lines h
  simp [chat_completions] at h

theorem invalid_json_returns_400_witness :
    chat_completions quietSecondaryEnv (.error ())
      = .jsonResp 400 (.obj [("error", .str "Invalid JSON body")]) :=
  (invalid_json_returns_400 quietSecondaryEnv).1

/-! ## Claim C1 -/

/-- C1 counterexample: the cache file `{}` parses as valid JSON, yet
`GET /v1/models` does not return it — the log statement
`len(cached_data['data'])` raises `KeyError`, which the `except` turns into
a fall-through, and an upstream (primary) call is made. -/
theorem listModels_cache_plain_object_counterexample :
    (list_models ⟨some (.ok (.obj [])), some (.ok []), .ok (200, .obj [])⟩).2 ≠ [] := by
  decide

/-- C1 (amended): for every cache file whose contents parse as valid JSON
**as an object with a `data` field whose value supports `len()`** (a string,
array or object), `GET /v1/models` returns exactly that JSON document with
status 200 and makes no upstream call. -/
theorem listModels_cache_hit_verbatim (env : ModelsEnv) (j d : Json)
    (hcache : env.cache = some (.ok j))
    (hdata : j.getField "data" = some d)
    (hlen : d.hasLen = true) :
    list_models env = (⟨200, j⟩, []) := by
  have hc : cacheHit env.cache = some j := by
    rw [hcache]
    simp [cacheHit, hdata, hlen]
  simp [list_models, hc]

theorem listModels_cache_hit_verbatim_witness :
    list_models ⟨some (.ok (.obj [("data", .arr [])])), none, .ok (200, .obj [])⟩
      = (⟨200, .obj [("data", .arr [])]⟩, []) :=
  listModels_cache_hit_verbatim _ (.obj [("data", .arr [])]) (.arr []) rfl rfl rfl

/-! ## Claim C8 -/

/-- C8: when the cache is unusable and a primary-provider client is
configured, any exception raised during the primary provider call yields
`{"error": <message>}` with status 500, and the secondary provider is never
contacted for that request. -/
theorem primary_list_error_500_no_fallthrough (env : ModelsEnv) (e : String)
    (hc : cacheHit env.cache = none)
    (hm : env.genaiModels = some (.error e)) :
    list_models env = (⟨500, .obj [("error", .str e)]⟩, [.genaiList]) ∧
    UpstreamCall.openrouterModels ∉ (list_models env).2 := by
  have hl : list_models env = (⟨500, .obj [("error", .str e)]⟩, [.genaiList]) := by
    simp [list_models, hc, liveFetch, hm]
  refine ⟨hl, ?_⟩
  rw [hl]
  simp

theorem primary_list_error_500_no_fallthrough_witness :
    list_models ⟨none, some (.error "boom"), .ok (200, .obj [])⟩
      = (⟨500, .obj [("error", .str "boom")]⟩, [.genaiList]) :=
  (primary_list_error_500_no_fallthrough ⟨none, some (.error "boom"), .ok (200, .obj [])⟩
    "boom" rfl rfl).1

/-! ## Claim C7 -/

/-- C7: on a cache miss with a configured primary provider, `GET /v1/models`
returns a catalog whose `data` length equals the number of models the
primary provider reports, and each descriptor substitutes defaults for
absent optional source fields: `name` defaults to the slug,
`context_length` and `max_completion_tokens` default to 4096, `description`
defaults to the empty string, and `supported_parameters` defaults to the
empty sequence. -/
theorem live_catalog_defaults (env : ModelsEnv) (ms : List GenaiModel)
    (hc : cacheHit env.cache = none)
    (hm : env.genaiModels = some (.ok ms)) :
    (list_models env).1.status = 200 ∧
    ∃ ds : List Json,
      (list_models env).1.body.getField "data" = some (.arr ds) ∧
      ds.length = ms.length ∧
      ∀ i (hi : i < ds.length) (hj : i < ms.length),
        ((ms.get ⟨i, hj⟩).display_name = none →
          (ds.get ⟨i, hi⟩).getField "name"
            = some (.str ((ms.get ⟨i, hj⟩).name.replace "models/" ""))) ∧
        ((ms.get ⟨i, hj⟩).input_token_limit = none →
          (ds.get ⟨i, hi⟩).getField "context_length" = some (.num 4096)) ∧
        ((ms.get ⟨i, hj⟩).output_token_limit = none →
          ((ds.get ⟨i, hi⟩).getField "top_provider").bind
            (fun tp => tp.getField "max_completion_tokens") = some (.num 4096)) ∧
        ((ms.get ⟨i, hj⟩).description = none →
          (ds.get ⟨i, hi⟩).getField "description" = some (.str "")) ∧
        ((ms.get ⟨i, hj⟩).supported_generation_methods = none →
          (ds.get ⟨i, hi⟩).getField "supported_parameters" = some (.arr [])) := by
  have hl : list_models env
      = (⟨200, .obj [("object", .str "list"), ("data", .arr (ms.map mapGenaiModel))]⟩,
         [.genaiList]) := by
    simp [list_models, hc, liveFetch, hm]
  rw [hl]
  refine ⟨rfl, ms.map mapGenaiModel, rfl, by simp, ?_⟩
  intro i hi hj
  have hget : (ms.map mapGenaiModel).get ⟨i, hi⟩ = mapGenaiModel (ms.get ⟨i, hj⟩) := by
    rw [List.get_eq_getElem, List.get_eq_getElem, List.getElem_map]
  rw [hget]
  refine ⟨?_, ?_, ?_, ?_, ?_⟩ <;> intro h <;> rw [List.get_eq_getElem] at h <;>
    simp +decide [mapGenaiModel, Json.getField, lookupKey, h]

theorem live_catalog_defaults_witness :
    (list_models oneModelEnv).1.status = 200 ∧
    ∃ ds : List Json,
      (list_models oneModelEnv).1.body.getField "data" = some (.arr ds) ∧
      ds.length = [bareModel].length ∧
      ∀ i (hi : i < ds.length) (hj : i < [bareModel].length),
        (([bareModel].get ⟨i, hj⟩).display_name = none →
          (ds.get ⟨i, hi⟩).getField "name"
            = some (.str (([bareModel].get ⟨i, hj⟩).name.replace "models/" ""))) ∧
        (([bareModel].get ⟨i, hj⟩).input_token_limit = none →
          (ds.get ⟨i, hi⟩).getField "context_length" = some (.num 4096)) ∧
        (([bareModel].get ⟨i, hj⟩).output_token_limit = none →
          ((ds.get ⟨i, hi⟩).getField "top_provider").bind
            (fun tp => tp.getField "max_completion_tokens") = some (.num 4096)) ∧
        (([bareModel].get ⟨i, hj⟩).description = none →
          (ds.get ⟨i, hi⟩).getField "description" = some (.str "")) ∧
        (([bareModel].get ⟨i, hj⟩).supported_generation_methods = none →
          (ds.get ⟨i, hi⟩).getField "supported_parameters" = some (.arr [])) :=
  live_catalog_defaults oneModelEnv [bareModel] rfl rfl

/-! ## Claim C2 -/

/-- C2: on every input sequence of ChatMessage objects, the source
translator agrees with the spec-level per-message translation applied by
`filterMap`: each message with empty/falsy content is dropped, role `user`
maps to `user`, `assistant` to `model`, anything else (including `system`)
to `system`, the surviving content is wrapped as a single-element parts
list `[{text: content}]`, relative order is preserved, and no messages are
merged (the output is exactly the element-wise image of the survivors). -/
theorem convert_messages_refines_spec (msgs : List ChatMessage) :
    convert_openai_messages_to_gemini_contents (msgs.map ChatMessage.toJson)
      = .ok (msgs.filterMap specMessageTranslation) := by
  induction msgs with
  | nil => rfl
  | cons m rest ih =>
    by_cases hc : m.content.isEmpty
    · simp +decide [convert_openai_messages_to_gemini_contents, ChatMessage.toJson,
        lookupKey, Json.isFalsy, hc, specMessageTranslation, ih]
    · by_cases hu : m.role = "user"
      · simp +decide [convert_openai_messages_to_gemini_contents, ChatMessage.toJson,
          lookupKey, Json.isFalsy, hc, specMessageTranslation, ih,
          mapRole, roleIs, Json.eqStr, hu, Except.map]
      · by_cases ha : m.role = "assistant"
        · simp +decide [convert_openai_messages_to_gemini_contents, ChatMessage.toJson,
            lookupKey, Json.isFalsy, hc, specMessageTranslation, ih,
            mapRole, roleIs, Json.eqStr, hu, ha, Except.map]
        · simp +decide [convert_openai_messages_to_gemini_contents, ChatMessage.toJson,
            lookupKey, Json.isFalsy, hc, specMessageTranslation, ih,
            mapRole, roleIs, Json.eqStr, hu, ha, Except.map]

theorem convert_messages_refines_spec_witness :
    convert_openai_messages_to_gemini_contents
        ([⟨"user", "hi"⟩, ⟨"assistant", ""⟩, ⟨"assistant", "ok"⟩].map ChatMessage.toJson)
      = .ok ([⟨"user", "hi"⟩, ⟨"assistant", ""⟩, ⟨"assistant", "ok"⟩].filterMap
          specMessageTranslation) :=
  convert_messages_refines_spec [⟨"user", "hi"⟩, ⟨"assistant", ""⟩, ⟨"assistant", "ok"⟩]

/-! ## Further stream lemmas -/

theorem append_nn_ne_done (l : String) (h : l ≠ "data: [DONE]") :
    l ++ "\n\n" ≠ doneLine := by
  intro he
  apply h
  have h2 := congrArg String.data he
  rw [String.data_append] at h2
  have e3 : doneLine.data = ("data: [DONE]" : String).data ++ ("\n\n" : String).data := rfl
  rw [e3] at h2
  exact String.ext (List.append_cancel_right h2)

theorem relayLines_countP_done (ls : List String) (h : ∀ l ∈ ls, l ≠ "data: [DONE]") :
    (relayLines ls).countP (fun l => l == doneLine) = 0 := by
  rw [List.countP_eq_zero]
  intro l2 hl2
  simp only [relayLines] at hl2
  obtain ⟨l, hl, rfl⟩ := List.mem_map.1 hl2
  have hmem := List.mem_of_mem_filter hl
  simpa using append_nn_ne_done l (h l hmem)

theorem errLine_done_countP (fs : List (String × Json)) :
    List.countP (fun l => l == doneLine) [sseData (.obj fs), doneLine] = 1 := by
  have hne : (sseData (.obj fs) == doneLine) = false := by
    simpa using sseData_obj_ne_done fs
  simp [List.countP_cons, hne]

/-! ## Claim C3 -/

/-- C3 counterexample: the secondary branch relays upstream lines verbatim;
an upstream stream whose final line is `data: [DONE]` (as OpenAI-style
upstreams emit) produces the sentinel line twice — once relayed and once
appended by the generator — so the stream does not end with exactly one
terminal sentinel line. -/
theorem secondary_stream_double_done_counterexample :
    event_generator ⟨["data: [DONE]"], none⟩ = [doneLine, doneLine] ∧
    (event_generator ⟨["data: [DONE]"], none⟩).countP (fun l => l == doneLine) ≠ 1 := by
  constructor
  · rfl
  · decide

/-- C3 (amended): every chat stream, from either branch, success or failure,
ends with the terminal sentinel `data: [DONE]\n\n`, and no exception escapes
either generator (a line list is always produced, errors becoming in-band
events).  In the primary branch the sentinel occurs exactly once in the
whole stream, and a provider exception yields exactly one in-band error
event immediately before it.  In the secondary branch an exception likewise
yields exactly one error event immediately before the final sentinel, but
upstream lines are relayed verbatim, so the sentinel count is exactly one
only when no upstream line itself equals `data: [DONE]`. -/
theorem stream_sentinel_structure :
    (∀ s : GenStream,
      (gemini_event_generator s).getLast? = some doneLine ∧
      (gemini_event_generator s).countP (fun l => l == doneLine) = 1 ∧
      ∀ e, s.err = some e →
        gemini_event_generator s
          = chunkLines s.events ++ [sseData (.obj [("error", .str e)]), doneLine]) ∧
    (∀ b : SecondaryBehavior,
      (event_generator b).getLast? = some doneLine ∧
      (∀ e, b.err = some e →
        event_generator b = relayLines b.lines ++ [orErrorLine e, doneLine]) ∧
      ((∀ l ∈ b.lines, l ≠ "data: [DONE]") →
        (event_generator b).countP (fun l => l == doneLine) = 1)) := by
  constructor
  · intro s
    refine ⟨?_, ?_, ?_⟩
    · cases herr : s.err with
      | none => simp [gemini_event_generator, herr, List.getLast?_concat]
      | some e =>
        simp only [gemini_event_generator, herr]
        rw [List.getLast?_append_cons]
        rfl
    · cases herr : s.err with
      | none =>
        simp [gemini_event_generator, herr, List.countP_append, chunkLines_countP_done,
          List.countP_cons]
      | some e =>
        simp [gemini_event_generator, herr, List.countP_append, chunkLines_countP_done,
          errLine_done_countP]
    · intro e herr
      simp [gemini_event_generator, herr]
  · intro b
    refine ⟨?_, ?_, ?_⟩
    · cases herr : b.err with
      | none => simp [event_generator, herr, List.getLast?_concat]
      | some e =>
        simp only [event_generator, herr]
        rw [List.getLast?_append_cons]
        rfl
    · intro e herr
      simp [event_generator, herr]
    · intro hup
      cases herr : b.err with
      | none =>
        simp [event_generator, herr, List.countP_append, relayLines_countP_done b.lines hup,
          List.countP_cons]
      | some e =>
        have h1 := relayLines_countP_done b.lines hup
        have h2 := errLine_done_countP [("error", .str ("Streaming failed: " ++ e))]
        simp [event_generator, herr, List.countP_append, h1, orErrorLine, h2]

theorem stream_sentinel_structure_witness :
    gemini_event_generator ⟨[], some "boom"⟩
      = chunkLines [] ++ [sseData (.obj [("error", .str "boom")]), doneLine] ∧
    (gemini_event_generator ⟨[], some "boom"⟩).countP (fun l => l == doneLine) = 1 :=
  ⟨(stream_sentinel_structure.1 ⟨[], some "boom"⟩).2.2 "boom" rfl,
   (stream_sentinel_structure.1 ⟨[], some "boom"⟩).2.1⟩

/-! ## Claim C6 -/

/-- C6 counterexample: with a configured primary client and body
`{"messages": [], "contents": "hi"}`, the `messages` field is present, yet
the handler falls back to `contents` — line 137 uses Python `or`, which
also falls back on a present-but-falsy value — and streams with content
`"hi"` rather than reading the content from `messages`. -/
theorem messages_falsy_fallback_counterexample :
    Json.getField (.obj [("messages", .arr []), ("contents", .str "hi")]) "messages"
      = some (.arr []) ∧
    chat_completions quietPrimaryEnv
        (.ok (.obj [("messages", .arr []), ("contents", .str "hi")]))
      = .stream (.primary (.str "gemini-2.5-flash") (.str "hi")) [doneLine] :=
  ⟨rfl, rfl⟩

/-- C6 (amended): in the primary chat branch, for every parsed JSON object
body the model is read from the `model` field defaulting to
`"gemini-2.5-flash"`; the content is read from `messages`, with fallback to
`contents` when `messages` is absent **or its value is falsy**; and when
the resolved content is absent or falsy — in particular when neither field
is present — the response is HTTP 400 with body
`{"error": "Missing 'messages' or 'contents'"}`. -/
theorem model_and_content_resolution (env : ChatEnv) (fs : List (String × Json))
    (hg : env.genaiConfigured = true) :
    (∀ v, lookupKey fs "messages" = some v → v.isFalsy = false →
      chat_completions env (.ok (.obj fs))
        = primaryCall env ((lookupKey fs "model").getD (.str "gemini-2.5-flash")) v) ∧
    (∀ w, absentOrFalsy (lookupKey fs "messages") → lookupKey fs "contents" = some w →
      w.isFalsy = false →
      chat_completions env (.ok (.obj fs))
        = primaryCall env ((lookupKey fs "model").getD (.str "gemini-2.5-flash")) w) ∧
    (absentOrFalsy (lookupKey fs "messages") → absentOrFalsy (lookupKey fs "contents") →
      chat_completions env (.ok (.obj fs)) = .jsonResp 400 missingBody) := by
  refine ⟨?_, ?_, ?_⟩
  · intro v hv hfv
    simp [chat_completions, hg, hv, pyOr, hfv]
  · intro w hm hw hfw
    rcases hm with hnone | ⟨v, hv, hfv⟩
    · simp [chat_completions, hg, hnone, hw, pyOr, hfw]
    · simp [chat_completions, hg, hv, hw, pyOr, hfv, hfw]
  · intro hm hc
    rcases hm with hnone | ⟨v, hv, hfv⟩ <;> rcases hc with hcnone | ⟨w, hw, hfw⟩
    · simp [chat_completions, hg, hnone, hcnone, pyOr,
        show Json.isFalsy Json.null = true from rfl]
    · simp [chat_completions, hg, hnone, hw, pyOr, hfw]
    · simp [chat_completions, hg, hv, hcnone, pyOr, hfv,
        show Json.isFalsy Json.null = true from rfl]
    · simp [chat_completions, hg, hv, hw, pyOr, hfv, hfw]

theorem model_and_content_resolution_witness :
    chat_completions quietPrimaryEnv (.ok (.obj [("messages", .str "hi")]))
      = primaryCall quietPrimaryEnv
          ((lookupKey [("messages", .str "hi")] "model").getD (.str "gemini-2.5-flash"))
          (.str "hi") :=
  (model_and_content_resolution quietPrimaryEnv [("messages", .str "hi")] rfl).1
    (.str "hi") rfl rfl

/-! ## Claim C5 -/

/-- C5 counterexample: with content
`[{"role": "user", "content": "hi"}, "junk"]` — a list that is **not** a
sequence of role/content objects — the value is not passed through
unchanged: line 142 inspects only the first element, so the translator
runs, raises `AttributeError` on the non-dict element, and the request ends
as a synchronous 500 with no stream at all. -/
theorem mixed_list_translator_error_counterexample :
    headIsObjList (.arr [.obj [("role", .str "user"), ("content", .str "hi")], .str "junk"])
        = true ∧
    chat_completions quietPrimaryEnv
        (.ok (.obj [("messages",
          .arr [.obj [("role", .str "user"), ("content", .str "hi")], .str "junk"])]))
      = .jsonResp 500 (.obj [("error", .str "AttributeError")]) ∧
    ∀ call lines,
      chat_completions quietPrimaryEnv
          (.ok (.obj [("messages",
            .arr [.obj [("role", .str "user"), ("content", .str "hi")], .str "junk"])]))
        ≠ .stream call lines := by
  refine ⟨rfl, rfl, ?_⟩
  intro call lines h
  rw [show chat_completions quietPrimaryEnv
      (.ok (.obj [("messages",
        .arr [.obj [("role", .str "user"), ("content", .str "hi")], .str "junk"])]))
    = .jsonResp 500 (.obj [("error", .str "AttributeError")]) from rfl] at h
  exact ChatResult.noConfusion h

/-- C5 (amended): in the primary chat branch, the resolved content value is
run through the Message Translator exactly when it is a nonempty list whose
first element is an object (the code inspects only the head): on translator
success the translated list is passed to the primary provider's streaming
call, on translator failure (a non-object later element) the request ends
as a synchronous 500; every other (truthy) content value is passed to the
streaming call completely unchanged. -/
theorem content_shape_dispatch (env : ChatEnv) (model c : Json) :
    (∀ f t rest, c = .arr (.obj f :: t) →
      convert_openai_messages_to_gemini_contents (.obj f :: t) = .ok rest →
      primaryCall env model c
        = .stream (.primary model (.arr rest))
            (gemini_event_generator (env.primary model (.arr rest)))) ∧
    (∀ f t e, c = .arr (.obj f :: t) →
      convert_openai_messages_to_gemini_contents (.obj f :: t) = .error e →
      primaryCall env model c = .jsonResp 500 (.obj [("error", .str e)])) ∧
    (headIsObjList c = false → c.isFalsy = false →
      primaryCall env model c
        = .stream (.primary model c) (gemini_event_generator (env.primary model c))) := by
  refine ⟨?_, ?_, ?_⟩
  · intro f t rest hc hconv
    subst hc
    simp [primaryCall, resolveContents, hconv, Except.map]
  · intro f t e hc hconv
    subst hc
    simp [primaryCall, resolveContents, hconv, Except.map]
  · intro hshape hfalsy
    have hres : resolveContents c = .ok c := by
      cases c with
      | arr xs =>
        cases xs with
        | nil => simp [Json.isFalsy] at hfalsy
        | cons h t =>
          cases h with
          | obj f => simp [headIsObjList] at hshape
          | null => rfl
          | bool b => rfl
          | num n => rfl
          | str s => rfl
          | arr ys => rfl
      | null => rfl
      | bool b => rfl
      | num n => rfl
      | str s => rfl
      | obj fs => rfl
    simp [primaryCall, hres]

theorem content_shape_dispatch_witness :
    primaryCall quietPrimaryEnv (.str "m") (.str "hi")
      = .stream (.primary (.str "m") (.str "hi"))
          (gemini_event_generator (quietPrimaryEnv.primary (.str "m") (.str "hi"))) :=
  (content_shape_dispatch quietPrimaryEnv (.str "m") (.str "hi")).2.2 rfl rfl

/-! ## Claim C9 -/

/-- C9: in the secondary chat branch, the body forwarded to the secondary
provider's chat-completions endpoint equals the caller's parsed (object)
body with only the `stream` field changed — set to `true` — and every other
field unchanged; and on upstream success each non-empty line of the
upstream response is relayed verbatim with a blank line appended after it
(before the terminal sentinel). -/
theorem secondary_forward_frame_and_relay (env : ChatEnv) (fs : List (String × Json))
    (hg : env.genaiConfigured = false) :
    ∃ fwd : Json,
      chat_completions env (.ok (.obj fs))
        = .stream (.secondary fwd) (event_generator (env.secondary fwd)) ∧
      fwd.getField "stream" = some (.bool true) ∧
      (∀ k, k ≠ "stream" → fwd.getField k = Json.getField (.obj fs) k) ∧
      ((env.secondary fwd).err = none →
        event_generator (env.secondary fwd)
          = ((env.secondary fwd).lines.filter (fun l => !l.isEmpty)).map
              (fun l => l ++ "\n\n") ++ [doneLine]) := by
  refine ⟨Json.obj (setKey fs "stream" (.bool true)), ?_, ?_, ?_, ?_⟩
  · simp [chat_completions, hg]
  · simp [Json.getField, lookupKey_setKey_self]
  · intro k hk
    simp [Json.getField, lookupKey_setKey_ne fs "stream" k (.bool true) hk]
  · intro herr
    simp [event_generator, herr, relayLines]

theorem secondary_forward_frame_and_relay_witness :
    ∃ fwd : Json,
      chat_completions quietSecondaryEnv (.ok (.obj [("model", .str "m")]))
        = .stream (.secondary fwd) (event_generator (quietSecondaryEnv.secondary fwd)) ∧
      fwd.getField "stream" = some (.bool true) ∧
      (∀ k, k ≠ "stream" →
        fwd.getField k = Json.getField (.obj [("model", .str "m")]) k) ∧
      ((quietSecondaryEnv.secondary fwd).err = none →
        event_generator (quietSecondaryEnv.secondary fwd)
          = ((quietSecondaryEnv.secondary fwd).lines.filter (fun l => !l.isEmpty)).map
              (fun l => l ++ "\n\n") ++ [doneLine]) :=
  secondary_forward_frame_and_relay quietSecondaryEnv [("model", .str "m")] rfl

/-! ## Claim C10 -/

/-- C10 counterexample: with no primary client configured and body `5`
(valid JSON containing neither `messages` nor `contents`), the assignment
`body["stream"] = True` at line 188 raises an uncaught `TypeError`: the
body is not forwarded and no streaming response is produced. -/
theorem nonobject_body_secondary_counterexample :
    chat_completions quietSecondaryEnv (.ok (.num 5)) = .uncaught "TypeError" ∧
    ∀ call lines,
      chat_completions quietSecondaryEnv (.ok (.num 5)) ≠ .stream call lines := by
  refine ⟨rfl, ?_⟩
  intro call lines h
  rw [show chat_completions quietSecondaryEnv (.ok (.num 5)) = .uncaught "TypeError"
    from rfl] at h
  exact ChatResult.noConfusion h

/-- C10 (amended): when no primary-provider client is configured,
`POST /v1/chat/completions` never returns the 400 "Missing 'messages' or
'contents'" error, and every successfully parsed JSON **object** body —
including one containing neither a `messages` nor a `contents` field — is
forwarded to the secondary provider and answered with a streaming response
(a non-object body instead raises an uncaught `TypeError` at
`body["stream"] = True`). -/
theorem secondary_branch_no_missing_400 (env : ChatEnv)
    (h : env.genaiConfigured = false) :
    (∀ j : Json, chat_completions env (.ok j) ≠ .jsonResp 400 missingBody) ∧
    (∀ fs : List (String × Json), ∃ fwd,
      chat_completions env (.ok (.obj fs))
        = .stream (.secondary fwd) (event_generator (env.secondary fwd))) := by
  constructor
  · intro j hj
    cases j <;> simp [chat_completions, h] at hj
  · intro fs
    exact ⟨Json.obj (setKey fs "stream" (.bool true)), by simp [chat_completions, h]⟩

theorem secondary_branch_no_missing_400_witness :
    chat_completions quietSecondaryEnv (.ok (.obj [])) ≠ .jsonResp 400 missingBody :=
  (secondary_branch_no_missing_400 quietSecondaryEnv rfl).1 (.obj [])
